import Mathlib

/-
Shallow embedding of src/gemini_file_search.py (class GeminiRAG).

The program is orchestration glue around a remote API.  The embedding
models the remote boundary explicitly: every remote call the code would
issue is recorded in a trace of RemoteCall values, and the outcome of
each remote call is an input (an oracle) to the embedded operation.
Python exceptions become Except values; the mutable object state
(self.uploaded_files, self.file_search_store) is threaded explicitly.
-/

namespace GeminiRAG

/- An opaque remote file handle (client.files.upload result).  Only its
name field is consulted by the code. -/
structure FileHandle where
  name : String
deriving DecidableEq

/- An opaque remote store handle (client.file_search_stores.create
result).  Only its name field is consulted by the code. -/
structure StoreHandle where
  name : String
deriving DecidableEq

/- The mutable state of a GeminiRAG object: the fields set in __init__
(lines 16-26 of the source). -/
structure State where
  api_key : String
  uploaded_files : List FileHandle
  file_search_store : Option StoreHandle
  model_name : String
deriving DecidableEq

/- One remote API call, as recorded in the trace of an operation. -/
inductive RemoteCall where
  | filesUpload (path : String)
  | importFile (storeName : String) (fileName : String)
  | operationsGet
  | generateContent (model : String) (question : String) (storeName : String)
  | filesDelete (name : String)
  | storeDelete (name : String)
deriving DecidableEq

/- A Python exception, by its type.  valueError and fileNotFoundError are
the two exception types the code raises itself; remoteError stands for any
exception raised inside a remote call; diverged marks poll-loop fuel
exhaustion (the loop in the source has no cap, so the fuel is an artifact
of the embedding used to talk about non-termination). -/
inductive RagError where
  | valueError (msg : String)
  | fileNotFoundError (msg : String)
  | remoteError
  | diverged
deriving DecidableEq

/- The initial state of an import operation returned by
client.file_search_stores.import_file: only its done flag is read. -/
structure ImportOp where
  initialDone : Bool
deriving DecidableEq

/- Oracle for one upload_file call: whether file_path.exists() holds, the
outcome of client.files.upload, the outcome of
client.file_search_stores.import_file, and the outcome of the n-th
client.operations.get (returning the operation's done flag). -/
structure UploadEnv where
  pathExists : Bool
  uploadResult : Except RagError FileHandle
  importResult : Except RagError ImportOp
  polls : Nat → Except RagError Bool

/- Lines 16-18 of the source: self.api_key = api_key or
os.getenv('GEMINI_API_KEY').  Python `or` falls through on falsy strings,
i.e. on None and on the empty string. -/
def pyOrStr (a : Option String) (b : Option String) : Option String :=
  match a with
  | none => b
  | some s => if s = "" then b else some s

/- __init__ (lines 14-27): resolve the credential, raise ValueError if it
is falsy, otherwise build the object state.  The constructor issues no
remote call. -/
def init (api_key : Option String) (getenv : String → Option String) :
    Except RagError State :=
  match pyOrStr api_key (getenv ("GEMINI_API_KEY")) with
  | none => Except.error (RagError.valueError ("GEMINI_API_KEY not found in environment variables"))
  | some k =>
    if k = "" then
      Except.error (RagError.valueError ("GEMINI_API_KEY not found in environment variables"))
    else
      Except.ok { api_key := k, uploaded_files := [], file_search_store := none,
                  model_name := "gemini-2.5-pro" }

/- The while loop of lines 69-71: while not operation.done: sleep(2);
operation = client.operations.get(operation).  `done` is the done flag of
the operation currently held; `i` counts the get calls made so far; the
fuel bounds the number of iterations the embedding will unfold (the
source has no such bound).  On exit returns the total number of get
calls; each iteration is one fixed 2-second sleep followed by one get. -/
def pollLoop (polls : Nat → Except RagError Bool) (i : Nat) (done : Bool)
    (fuel : Nat) : List RemoteCall × Except RagError Nat :=
  match done with
  | true => ([], Except.ok i)
  | false =>
    match fuel with
    | 0 => ([], Except.error RagError.diverged)
    | fuel' + 1 =>
      match polls i with
      | Except.error e => ([RemoteCall.operationsGet], Except.error e)
      | Except.ok d =>
        let rest := pollLoop polls (i + 1) d fuel'
        (RemoteCall.operationsGet :: rest.1, rest.2)

/- A pointwise always-succeeding poll oracle, for stating facts about the
loop when client.operations.get never raises. -/
def purePolls (dones : Nat → Bool) : Nat → Except RagError Bool :=
  fun i => Except.ok (dones i)

/- upload_file (lines 41-75).  Guard order as in the source: the store
check (line 43) precedes the existence check (line 47).  Then the raw
upload, the file import, the poll loop, and only then the append to
self.uploaded_files (line 74).  The result is (trace of remote calls,
post state, returned handle or raised exception). -/
def upload_file (st : State) (file_path : String) (env : UploadEnv)
    (fuel : Nat) : List RemoteCall × State × Except RagError FileHandle :=
  match st.file_search_store with
  | none =>
    ([], st, Except.error (RagError.valueError ("No file search store created. Call create_store() first.")))
  | some store =>
    match env.pathExists with
    | false =>
      ([], st, Except.error (RagError.fileNotFoundError ("File not found: " ++ file_path)))
    | true =>
      match env.uploadResult with
      | Except.error e => ([RemoteCall.filesUpload file_path], st, Except.error e)
      | Except.ok uploaded_file =>
        match env.importResult with
        | Except.error e =>
          ([RemoteCall.filesUpload file_path,
            RemoteCall.importFile store.name uploaded_file.name], st, Except.error e)
        | Except.ok op =>
          match (pollLoop env.polls 0 op.initialDone fuel).2 with
          | Except.error e =>
            (RemoteCall.filesUpload file_path ::
              RemoteCall.importFile store.name uploaded_file.name ::
                (pollLoop env.polls 0 op.initialDone fuel).1,
             st, Except.error e)
          | Except.ok _ =>
            (RemoteCall.filesUpload file_path ::
              RemoteCall.importFile store.name uploaded_file.name ::
                (pollLoop env.polls 0 op.initialDone fuel).1,
             { st with uploaded_files := st.uploaded_files ++ [uploaded_file] },
             Except.ok uploaded_file)

/- The try/except of lines 81-86: a raised exception becomes a recorded
None result. -/
def exceptToOption (r : Except RagError FileHandle) : Option FileHandle :=
  match r with
  | Except.ok f => some f
  | Except.error _ => none

/- upload_multiple_files (lines 77-87): iterate the paths, each with its
own remote-outcome oracle, appending (path, result) on success and
(path, None) when upload_file raised; the loop never aborts early. -/
def upload_multiple_files (st : State) (inputs : List (String × UploadEnv))
    (fuel : Nat) : List RemoteCall × State × List (String × Option FileHandle) :=
  match inputs with
  | [] => ([], st, [])
  | (file_path, env) :: rest =>
    let step := upload_file st file_path env fuel
    let entry : String × Option FileHandle := (file_path, exceptToOption step.2.2)
    let restRun := upload_multiple_files step.2.1 rest fuel
    (step.1 ++ restRun.1, restRun.2.1, entry :: restRun.2.2)

/- A grounding chunk of the generation response (lines 128-130): the
hasattr chain succeeds exactly when a retrieved context with a title is
present. -/
structure RetrievedContext where
  title : String
deriving DecidableEq

structure GroundingChunk where
  retrieved_context : Option RetrievedContext
deriving DecidableEq

structure GroundingMetadata where
  grounding_chunks : List GroundingChunk
deriving DecidableEq

structure Candidate where
  grounding_metadata : Option GroundingMetadata
deriving DecidableEq

structure GenResponse where
  text : String
  candidates : List Candidate
deriving DecidableEq

/- The titles carried by a chunk list (the values added to the set on
line 130, in loop order). -/
def chunkTitles (chunks : List GroundingChunk) : List String :=
  chunks.filterMap (fun c => c.retrieved_context.map (fun rc => rc.title))

/- Lines 127-134: sources = set(); add every carried title; display
sorted(sources).  A Python set sorted is exactly the sorted list of the
distinct elements, i.e. Finset.sort of the toFinset. -/
def extractSources (chunks : List GroundingChunk) : List String :=
  Finset.sort (fun a b => a ≤ b) (chunkTitles chunks).toFinset

/- query (lines 89-139): the two precondition guards, then one
generate_content call whose outcome is the oracle `remote`; on success
the displayed source list is computed from the first candidate's
grounding chunks (empty when there is no candidate, no grounding
metadata, or no chunk). -/
def query (st : State) (question : String)
    (remote : Except RagError GenResponse) :
    List RemoteCall × Except RagError (GenResponse × List String) :=
  match st.file_search_store with
  | none =>
    ([], Except.error (RagError.valueError ("No file search store created. Call create_store() first.")))
  | some store =>
    if st.uploaded_files.isEmpty then
      ([], Except.error (RagError.valueError ("No files uploaded. Call upload_file() first.")))
    else
      match remote with
      | Except.error e =>
        ([RemoteCall.generateContent st.model_name question store.name], Except.error e)
      | Except.ok resp =>
        let sources :=
          match resp.candidates with
          | [] => []
          | c :: _ =>
            match c.grounding_metadata with
            | none => []
            | some g =>
              if g.grounding_chunks.isEmpty then []
              else extractSources g.grounding_chunks
        ([RemoteCall.generateContent st.model_name question store.name],
         Except.ok (resp, sources))

/- The loop body of delete_files (lines 153-158): one files.delete call
per bookkeeping entry; the except arm only prints, so both arms record
the attempted call and continue. -/
def deleteLoop (remote : String → Except RagError Unit) :
    List FileHandle → List RemoteCall
  | [] => []
  | f :: rest =>
    match remote f.name with
    | Except.ok _ => RemoteCall.filesDelete f.name :: deleteLoop remote rest
    | Except.error _ => RemoteCall.filesDelete f.name :: deleteLoop remote rest

/- delete_files (lines 150-160): attempt a remote delete for every entry,
then unconditionally self.uploaded_files = []. -/
def delete_files (st : State) (remote : String → Except RagError Unit) :
    List RemoteCall × State :=
  (deleteLoop remote st.uploaded_files, { st with uploaded_files := [] })

/- delete_store (lines 171-181): with no active store only a message is
printed; with an active store one remote delete is attempted, and
self.file_search_store = None is executed only inside the try block,
after the remote call returned — the except arm leaves the reference
set. -/
def delete_store (st : State) (remote : String → Except RagError Unit) :
    List RemoteCall × State :=
  match st.file_search_store with
  | none => ([], st)
  | some s =>
    match remote s.name with
    | Except.ok _ =>
      ([RemoteCall.storeDelete s.name], { st with file_search_store := none })
    | Except.error _ => ([RemoteCall.storeDelete s.name], st)

/- The outcome of one upload_file call recorded by upload_multiple_files,
as a function of the only state component the control flow of
upload_file reads: the store reference. -/
def uploadOutcome (store : Option StoreHandle) (file_path : String)
    (env : UploadEnv) (fuel : Nat) : Option FileHandle :=
  exceptToOption (upload_file
    { api_key := "", uploaded_files := [], file_search_store := store,
      model_name := "" } file_path env fuel).2.2

/- Concrete fixtures used by witnesses and counterexamples. -/

def stNoStore : State :=
  { api_key := "k", uploaded_files := [], file_search_store := none,
    model_name := "gemini-2.5-pro" }

def store1 : StoreHandle := { name := "stores/s1" }

def stEmptyStore : State :=
  { api_key := "k", uploaded_files := [], file_search_store := some store1,
    model_name := "gemini-2.5-pro" }

def fileA : FileHandle := { name := "files/a" }

def stWithStore : State :=
  { api_key := "k", uploaded_files := [fileA], file_search_store := some store1,
    model_name := "gemini-2.5-pro" }

def envMissing : UploadEnv :=
  { pathExists := false, uploadResult := Except.error RagError.remoteError,
    importResult := Except.error RagError.remoteError,
    polls := purePolls (fun _ => false) }

def remoteFail : String → Except RagError Unit := fun _ => Except.error RagError.remoteError

def remoteOk : String → Except RagError Unit := fun _ => Except.ok ()

def envNone : String → Option String := fun _ => none

def chunkTitleA : GroundingChunk := { retrieved_context := some { title := "a" } }

def chunkTitleB : GroundingChunk := { retrieved_context := some { title := "b" } }

def chunkNoCtx : GroundingChunk := { retrieved_context := none }

def chunksOrig : List GroundingChunk := [chunkTitleB, chunkNoCtx, chunkTitleA, chunkTitleB]

def chunksShuffled : List GroundingChunk := [chunkTitleA, chunkTitleB, chunkTitleB, chunkNoCtx]

def neverDone : Nat → Bool := fun _ => false

def fileF : FileHandle := { name := "files/f1" }

def opNotDone : ImportOp := { initialDone := false }

def envOkUpload : UploadEnv :=
  { pathExists := true, uploadResult := Except.ok fileF,
    importResult := Except.ok opNotDone,
    polls := purePolls (fun _ => true) }

end GeminiRAG

namespace GeminiRAG

/-- C1: in every session state with no file search store, query raises
ValueError and the remote-call trace is empty: no generation call is
issued. -/
theorem C1_query_no_store (st : State) (question : String)
    (remote : Except RagError GenResponse) (h : st.file_search_store = none) :
    query st question remote =
      ([], Except.error (RagError.valueError
        ("No file search store created. Call create_store() first."))) := by
  unfold query
  rw [h]

/-- Witness for C1 at a concrete state. -/
theorem C1_query_no_store_witness :
    stNoStore.file_search_store = none ∧
    query stNoStore ("q") (Except.error RagError.remoteError) =
      ([], Except.error (RagError.valueError
        ("No file search store created. Call create_store() first."))) :=
  ⟨rfl, C1_query_no_store stNoStore ("q") (Except.error RagError.remoteError) rfl⟩

/-- C2: in every session state with an active store but an empty
uploaded-files list, query raises ValueError and the remote-call trace is
empty: no remote call is issued. -/
theorem C2_query_no_files (st : State) (question : String)
    (remote : Except RagError GenResponse) (s : StoreHandle)
    (hs : st.file_search_store = some s) (hf : st.uploaded_files = []) :
    query st question remote =
      ([], Except.error (RagError.valueError
        ("No files uploaded. Call upload_file() first."))) := by
  unfold query
  rw [hs, hf]
  rfl

/-- Witness for C2 at a concrete state. -/
theorem C2_query_no_files_witness :
    stEmptyStore.uploaded_files = [] ∧
    query stEmptyStore ("q") (Except.error RagError.remoteError) =
      ([], Except.error (RagError.valueError
        ("No files uploaded. Call upload_file() first."))) :=
  ⟨rfl, C2_query_no_files stEmptyStore ("q") (Except.error RagError.remoteError)
    store1 rfl rfl⟩

/-- C3 counterexample: the store guard precedes the existence check, so in
the no-store state a nonexistent path raises ValueError, not
FileNotFoundError, refuting the claim as stated for that state. -/
theorem C3_counterexample :
    envMissing.pathExists = false ∧
    (upload_file stNoStore ("missing.txt") envMissing 0).2.2 =
      Except.error (RagError.valueError
        ("No file search store created. Call create_store() first.")) ∧
    (upload_file stNoStore ("missing.txt") envMissing 0).2.2 ≠
      Except.error (RagError.fileNotFoundError ("File not found: missing.txt")) := by
  refine ⟨rfl, rfl, ?_⟩
  intro h
  injection h with h2
  injection h2

/-- C3 (amended): in every session state with an active store, a
nonexistent path makes upload_file raise FileNotFoundError with the state
unchanged and an empty remote-call trace (no upload, no file import). -/
theorem C3_upload_missing_path (st : State) (file_path : String)
    (env : UploadEnv) (fuel : Nat) (s : StoreHandle)
    (hs : st.file_search_store = some s) (hp : env.pathExists = false) :
    upload_file st file_path env fuel =
      ([], st, Except.error (RagError.fileNotFoundError
        ("File not found: " ++ file_path))) := by
  unfold upload_file
  rw [hs, hp]

/-- Witness for C3's amended theorem at a concrete state. -/
theorem C3_upload_missing_path_witness :
    upload_file stEmptyStore ("missing.txt") envMissing 0 =
      ([], stEmptyStore, Except.error (RagError.fileNotFoundError
        ("File not found: " ++ "missing.txt"))) :=
  C3_upload_missing_path stEmptyStore ("missing.txt") envMissing 0 store1 rfl rfl

/- The delete loop issues exactly one files.delete call per bookkeeping
entry, in order, whatever the per-call outcomes. -/
theorem deleteLoop_eq_map (remote : String → Except RagError Unit)
    (files : List FileHandle) :
    deleteLoop remote files = files.map (fun f => RemoteCall.filesDelete f.name) := by
  induction files with
  | nil => rfl
  | cons f rest ih =>
    unfold deleteLoop
    cases remote f.name <;> simp [ih]

/-- C6: for every state and every pattern of per-file remote delete
outcomes, delete_files leaves the local uploaded_files list empty, and
the remote-call trace holds one delete attempt per prior entry. -/
theorem C6_delete_files (st : State) (remote : String → Except RagError Unit) :
    (delete_files st remote).2.uploaded_files = [] ∧
    (delete_files st remote).1 =
      st.uploaded_files.map (fun f => RemoteCall.filesDelete f.name) :=
  ⟨rfl, deleteLoop_eq_map remote st.uploaded_files⟩

/-- C8 counterexample: with an active store and a failing remote delete,
delete_store swallows the error and leaves the local store reference set,
refuting "cleared regardless of the remote call's outcome". -/
theorem C8_counterexample :
    (delete_store stWithStore remoteFail).1 = [RemoteCall.storeDelete ("stores/s1")] ∧
    (delete_store stWithStore remoteFail).2.file_search_store = some store1 ∧
    (delete_store stWithStore remoteFail).2.file_search_store ≠ none := by
  refine ⟨rfl, rfl, ?_⟩
  intro h
  injection h

/-- C8 (amended): with an active store, delete_store always attempts one
remote delete and never touches uploaded_files; the local store reference
is cleared when the remote call succeeds and left set when it raises (the
error is swallowed). -/
theorem C8_delete_store (st : State) (remote : String → Except RagError Unit)
    (s : StoreHandle) (hs : st.file_search_store = some s) :
    (delete_store st remote).1 = [RemoteCall.storeDelete s.name] ∧
    (delete_store st remote).2.uploaded_files = st.uploaded_files ∧
    (delete_store st remote).2.file_search_store =
      (match remote s.name with
       | Except.ok _ => none
       | Except.error _ => some s) := by
  simp only [delete_store, hs]
  cases h : remote s.name with
  | ok u => exact ⟨rfl, rfl, rfl⟩
  | error e => exact ⟨rfl, rfl, hs⟩

/-- Witness for C8's amended theorem at a concrete state with a
succeeding remote delete. -/
theorem C8_delete_store_witness :
    (delete_store stWithStore remoteOk).1 = [RemoteCall.storeDelete (store1.name)] ∧
    (delete_store stWithStore remoteOk).2.uploaded_files = stWithStore.uploaded_files ∧
    (delete_store stWithStore remoteOk).2.file_search_store = none :=
  C8_delete_store stWithStore remoteOk store1 rfl

/- The poll loop can only report completion after observing a done flag:
either the operation arrived done, or some operations.get returned done. -/
theorem pollLoop_ok_means_done (polls : Nat → Except RagError Bool) :
    ∀ (fuel i : Nat) (d : Bool) (m : Nat),
      (pollLoop polls i d fuel).2 = Except.ok m →
      d = true ∨ ∃ n, polls n = Except.ok true := by
  intro fuel
  induction fuel with
  | zero =>
    intro i d m h
    cases d
    · simp [pollLoop] at h
    · exact Or.inl rfl
  | succ fuel ih =>
    intro i d m h
    cases d
    · cases hp : polls i with
      | error e =>
        unfold pollLoop at h
        rw [hp] at h
        simp at h
      | ok dd =>
        unfold pollLoop at h
        rw [hp] at h
        simp only at h
        rcases ih (i + 1) dd m h with hd | hex
        · exact Or.inr ⟨i, by rw [hp, hd]⟩
        · exact Or.inr hex
    · exact Or.inl rfl

/- Branch-evaluation lemmas for upload_file: one per return or raise
point of the source, with the guards pinned by hypotheses. -/

theorem upload_eval_noStore (st : State) (p : String) (env : UploadEnv)
    (fuel : Nat) (hs : st.file_search_store = none) :
    upload_file st p env fuel =
      ([], st, Except.error (RagError.valueError
        ("No file search store created. Call create_store() first."))) := by
  simp [upload_file, hs]

theorem upload_eval_noPath (st : State) (p : String) (env : UploadEnv)
    (fuel : Nat) (store : StoreHandle)
    (hs : st.file_search_store = some store) (hp : env.pathExists = false) :
    upload_file st p env fuel =
      ([], st, Except.error (RagError.fileNotFoundError
        ("File not found: " ++ p))) := by
  simp [upload_file, hs, hp]

theorem upload_eval_uploadErr (st : State) (p : String) (env : UploadEnv)
    (fuel : Nat) (store : StoreHandle) (e : RagError)
    (hs : st.file_search_store = some store) (hp : env.pathExists = true)
    (hu : env.uploadResult = Except.error e) :
    upload_file st p env fuel =
      ([RemoteCall.filesUpload p], st, Except.error e) := by
  simp [upload_file, hs, hp, hu]

theorem upload_eval_importErr (st : State) (p : String) (env : UploadEnv)
    (fuel : Nat) (store : StoreHandle) (f0 : FileHandle) (e : RagError)
    (hs : st.file_search_store = some store) (hp : env.pathExists = true)
    (hu : env.uploadResult = Except.ok f0)
    (him : env.importResult = Except.error e) :
    upload_file st p env fuel =
      ([RemoteCall.filesUpload p, RemoteCall.importFile store.name f0.name],
       st, Except.error e) := by
  simp [upload_file, hs, hp, hu, him]

theorem upload_eval_pollErr (st : State) (p : String) (env : UploadEnv)
    (fuel : Nat) (store : StoreHandle) (f0 : FileHandle) (op : ImportOp)
    (e : RagError)
    (hs : st.file_search_store = some store) (hp : env.pathExists = true)
    (hu : env.uploadResult = Except.ok f0)
    (him : env.importResult = Except.ok op)
    (hpoll : (pollLoop env.polls 0 op.initialDone fuel).2 = Except.error e) :
    upload_file st p env fuel =
      (RemoteCall.filesUpload p :: RemoteCall.importFile store.name f0.name ::
        (pollLoop env.polls 0 op.initialDone fuel).1,
       st, Except.error e) := by
  simp [upload_file, hs, hp, hu, him, hpoll]

theorem upload_eval_ok (st : State) (p : String) (env : UploadEnv)
    (fuel : Nat) (store : StoreHandle) (f0 : FileHandle) (op : ImportOp)
    (m : Nat)
    (hs : st.file_search_store = some store) (hp : env.pathExists = true)
    (hu : env.uploadResult = Except.ok f0)
    (him : env.importResult = Except.ok op)
    (hpoll : (pollLoop env.polls 0 op.initialDone fuel).2 = Except.ok m) :
    upload_file st p env fuel =
      (RemoteCall.filesUpload p :: RemoteCall.importFile store.name f0.name ::
        (pollLoop env.polls 0 op.initialDone fuel).1,
       { st with uploaded_files := st.uploaded_files ++ [f0] },
       Except.ok f0) := by
  simp [upload_file, hs, hp, hu, him, hpoll]

/- upload_file never changes the store reference: only uploaded_files is
ever written. -/
theorem upload_file_store_eq (st : State) (p : String) (env : UploadEnv)
    (fuel : Nat) :
    (upload_file st p env fuel).2.1.file_search_store = st.file_search_store := by
  cases hs : st.file_search_store with
  | none => rw [upload_eval_noStore st p env fuel hs, hs]
  | some store =>
    cases hp : env.pathExists with
    | false => rw [upload_eval_noPath st p env fuel store hs hp, hs]
    | true =>
      cases hu : env.uploadResult with
      | error e => rw [upload_eval_uploadErr st p env fuel store e hs hp hu, hs]
      | ok f0 =>
        cases him : env.importResult with
        | error e =>
          rw [upload_eval_importErr st p env fuel store f0 e hs hp hu him, hs]
        | ok op =>
          cases hpoll : (pollLoop env.polls 0 op.initialDone fuel).2 with
          | error e =>
            rw [upload_eval_pollErr st p env fuel store f0 op e hs hp hu him hpoll, hs]
          | ok m =>
            rw [upload_eval_ok st p env fuel store f0 op m hs hp hu him hpoll, hs]

/- The raised-or-returned outcome of upload_file reads no state component
other than the store reference. -/
theorem upload_file_result_store_only (st₁ st₂ : State) (p : String)
    (env : UploadEnv) (fuel : Nat)
    (h : st₁.file_search_store = st₂.file_search_store) :
    (upload_file st₁ p env fuel).2.2 = (upload_file st₂ p env fuel).2.2 := by
  cases hs : st₂.file_search_store with
  | none =>
    rw [upload_eval_noStore st₁ p env fuel (h.trans hs),
      upload_eval_noStore st₂ p env fuel hs]
  | some store =>
    cases hp : env.pathExists with
    | false =>
      rw [upload_eval_noPath st₁ p env fuel store (h.trans hs) hp,
        upload_eval_noPath st₂ p env fuel store hs hp]
    | true =>
      cases hu : env.uploadResult with
      | error e =>
        rw [upload_eval_uploadErr st₁ p env fuel store e (h.trans hs) hp hu,
          upload_eval_uploadErr st₂ p env fuel store e hs hp hu]
      | ok f0 =>
        cases him : env.importResult with
        | error e =>
          rw [upload_eval_importErr st₁ p env fuel store f0 e (h.trans hs) hp hu him,
            upload_eval_importErr st₂ p env fuel store f0 e hs hp hu him]
        | ok op =>
          cases hpoll : (pollLoop env.polls 0 op.initialDone fuel).2 with
          | error e =>
            rw [upload_eval_pollErr st₁ p env fuel store f0 op e (h.trans hs) hp hu him hpoll,
              upload_eval_pollErr st₂ p env fuel store f0 op e hs hp hu him hpoll]
          | ok m =>
            rw [upload_eval_ok st₁ p env fuel store f0 op m (h.trans hs) hp hu him hpoll,
              upload_eval_ok st₂ p env fuel store f0 op m hs hp hu him hpoll]

/- The recorded result of one batch entry is uploadOutcome of the store
reference. -/
theorem exceptToOption_upload_file (st : State) (p : String) (env : UploadEnv)
    (fuel : Nat) :
    exceptToOption (upload_file st p env fuel).2.2 =
      uploadOutcome st.file_search_store p env fuel := by
  unfold uploadOutcome
  exact congrArg exceptToOption
    (upload_file_result_store_only st
      { api_key := "", uploaded_files := [],
        file_search_store := st.file_search_store, model_name := "" }
      p env fuel rfl)

/-- C4: batch upload returns one (path, result) pair per input path, in
input order; each pair carries the handle when that upload succeeded and
None when it raised (per-file outcome of the path under its own remote
oracle), so no per-file failure aborts the remaining iterations. -/
theorem C4_upload_multiple_files (st : State)
    (inputs : List (String × UploadEnv)) (fuel : Nat) :
    (upload_multiple_files st inputs fuel).2.2 =
      inputs.map (fun pe => (pe.1, uploadOutcome st.file_search_store pe.1 pe.2 fuel)) := by
  induction inputs generalizing st with
  | nil => rfl
  | cons pe rest ih =>
    obtain ⟨p, env⟩ := pe
    show (p, exceptToOption (upload_file st p env fuel).2.2) ::
        (upload_multiple_files (upload_file st p env fuel).2.1 rest fuel).2.2 =
      (p, uploadOutcome st.file_search_store p env fuel) ::
        rest.map (fun pe => (pe.1, uploadOutcome st.file_search_store pe.1 pe.2 fuel))
    rw [exceptToOption_upload_file st p env fuel,
      ih ((upload_file st p env fuel).2.1),
      upload_file_store_eq st p env fuel]

/-- C10: upload_file is atomic for the session bookkeeping: every failure
path (no store, missing path, raising upload, raising file import,
raising or never-completing poll) leaves the state unchanged, and the
success path appends exactly the uploaded handle, only with evidence that
the operation reported done (on arrival or at some poll). -/
theorem C10_upload_file_atomic (st : State) (file_path : String)
    (env : UploadEnv) (fuel : Nat) :
    (∀ e, (upload_file st file_path env fuel).2.2 = Except.error e →
      (upload_file st file_path env fuel).2.1 = st) ∧
    (∀ f, (upload_file st file_path env fuel).2.2 = Except.ok f →
      (upload_file st file_path env fuel).2.1 =
        { st with uploaded_files := st.uploaded_files ++ [f] } ∧
      env.uploadResult = Except.ok f ∧
      (∃ op, env.importResult = Except.ok op ∧
        (op.initialDone = true ∨ ∃ n, env.polls n = Except.ok true))) := by
  cases hs : st.file_search_store with
  | none =>
    rw [upload_eval_noStore st file_path env fuel hs]
    exact ⟨fun e _ => rfl, fun f hf => Except.noConfusion hf⟩
  | some store =>
    cases hp : env.pathExists with
    | false =>
      rw [upload_eval_noPath st file_path env fuel store hs hp]
      exact ⟨fun e _ => rfl, fun f hf => Except.noConfusion hf⟩
    | true =>
      cases hu : env.uploadResult with
      | error e0 =>
        rw [upload_eval_uploadErr st file_path env fuel store e0 hs hp hu]
        exact ⟨fun e _ => rfl, fun f hf => Except.noConfusion hf⟩
      | ok f0 =>
        cases him : env.importResult with
        | error e0 =>
          rw [upload_eval_importErr st file_path env fuel store f0 e0 hs hp hu him]
          exact ⟨fun e _ => rfl, fun f hf => Except.noConfusion hf⟩
        | ok op =>
          cases hpoll : (pollLoop env.polls 0 op.initialDone fuel).2 with
          | error e0 =>
            rw [upload_eval_pollErr st file_path env fuel store f0 op e0 hs hp hu him hpoll]
            exact ⟨fun e _ => rfl, fun f hf => Except.noConfusion hf⟩
          | ok m =>
            rw [upload_eval_ok st file_path env fuel store f0 op m hs hp hu him hpoll]
            refine ⟨fun e he => Except.noConfusion he, fun f hf => ?_⟩
            have hf' : f0 = f := Except.ok.inj hf
            subst hf'
            refine ⟨?_, rfl, op, rfl, ?_⟩
            · rw [← hs]
            · rcases pollLoop_ok_means_done env.polls fuel 0 op.initialDone m hpoll
                with hd | hex
              · exact Or.inl hd
              · exact Or.inr hex

/-- Witness for C10 on a concrete successful upload into a nonempty
session: exactly the new handle is appended. -/
theorem C10_upload_file_atomic_witness :
    (upload_file stWithStore ("doc.txt") envOkUpload 3).2.1 =
      { stWithStore with uploaded_files := stWithStore.uploaded_files ++ [fileF] } :=
  ((C10_upload_file_atomic stWithStore ("doc.txt") envOkUpload 3).2 fileF (by rfl)).1

/-- C5: the displayed source list holds each distinct carried title
exactly once, lexicographically sorted, and is invariant under any
permutation of the chunk sequence. -/
theorem C5_extract_sources (chunks chunks2 : List GroundingChunk)
    (hperm : chunks.Perm chunks2) :
    List.Sorted (fun a b : String => a ≤ b) (extractSources chunks) ∧
    (∀ t : String, t ∈ extractSources chunks ↔ t ∈ chunkTitles chunks) ∧
    (∀ t : String, t ∈ extractSources chunks → (extractSources chunks).count t = 1) ∧
    extractSources chunks = extractSources chunks2 := by
  refine ⟨Finset.sort_sorted _ _, ?_, ?_, ?_⟩
  · intro t
    simp [extractSources, Finset.mem_sort, List.mem_toFinset]
  · intro t ht
    exact List.count_eq_one_of_mem (Finset.sort_nodup _ _) ht
  · unfold extractSources
    congr 1
    exact List.toFinset_eq_of_perm _ _ (hperm.filterMap _)

/-- Witness for C5 on a concrete chunk list with a duplicate title, a
title-free chunk, and a shuffled copy. -/
theorem C5_extract_sources_witness :
    chunksOrig.Perm chunksShuffled ∧
    extractSources chunksOrig = extractSources chunksShuffled :=
  ⟨by decide, (C5_extract_sources chunksOrig chunksShuffled (by decide)).2.2.2⟩

/- With polls that never raise, a done flag at poll index n lets the loop
exit within n + 1 iterations. -/
theorem pollLoop_ok_of_done (dones : Nat → Bool) :
    ∀ (n i : Nat), dones (i + n) = true →
      ∃ m, (pollLoop (purePolls dones) i false (n + 1)).2 = Except.ok m := by
  intro n
  induction n with
  | zero =>
    intro i h
    have h0 : dones i = true := h
    refine ⟨i + 1, ?_⟩
    show (pollLoop (purePolls dones) (i + 1) (dones i) 0).2 = Except.ok (i + 1)
    rw [h0]
    rfl
  | succ n ih =>
    intro i h
    have h' : dones ((i + 1) + n) = true := by
      rw [show (i + 1) + n = i + (n + 1) by omega]
      exact h
    cases hp : dones i with
    | true =>
      refine ⟨i + 1, ?_⟩
      show (pollLoop (purePolls dones) (i + 1) (dones i) (n + 1)).2 = Except.ok (i + 1)
      rw [hp]
      rfl
    | false =>
      rcases ih (i + 1) h' with ⟨m, hm⟩
      refine ⟨m, ?_⟩
      show (pollLoop (purePolls dones) (i + 1) (dones i) (n + 1)).2 = Except.ok m
      rw [hp]
      exact hm

/- With polls that never raise and never report done, every finite
unfolding of the loop runs out of fuel: the wait is unbounded. -/
theorem pollLoop_never_done (dones : Nat → Bool) (hall : ∀ n, dones n = false) :
    ∀ (fuel i : Nat),
      (pollLoop (purePolls dones) i false fuel).2 = Except.error RagError.diverged := by
  intro fuel
  induction fuel with
  | zero => intro i; rfl
  | succ fuel ih =>
    intro i
    show (pollLoop (purePolls dones) (i + 1) (dones i) fuel).2 =
      Except.error RagError.diverged
    rw [hall i]
    exact ih (i + 1)

/-- C7: the import poll loop (one fixed 2-second sleep then one
operations.get per iteration, no cap) terminates within some finite
number of iterations if and only if a done flag is eventually observed;
when the operation never reports done, every finite unfolding of the
loop is still running — the wait is unbounded. -/
theorem C7_poll_loop (dones : Nat → Bool) (d0 : Bool) :
    ((∃ fuel m, (pollLoop (purePolls dones) 0 d0 fuel).2 = Except.ok m) ↔
      (d0 = true ∨ ∃ n, dones n = true)) ∧
    ((d0 = false ∧ ∀ n, dones n = false) →
      ∀ fuel, (pollLoop (purePolls dones) 0 d0 fuel).2 =
        Except.error RagError.diverged) := by
  constructor
  · constructor
    · rintro ⟨fuel, m, hm⟩
      rcases pollLoop_ok_means_done (purePolls dones) fuel 0 d0 m hm with hd | ⟨n, hn⟩
      · exact Or.inl hd
      · refine Or.inr ⟨n, ?_⟩
        have hn' : Except.ok (dones n) = (Except.ok true : Except RagError Bool) := hn
        injection hn'
    · rintro (hd | ⟨n, hn⟩)
      · subst hd
        exact ⟨0, 0, rfl⟩
      · cases hd0 : d0 with
        | true => exact ⟨0, 0, rfl⟩
        | false =>
          rcases pollLoop_ok_of_done dones n 0 (by rw [Nat.zero_add]; exact hn) with ⟨m, hm⟩
          exact ⟨n + 1, m, hm⟩
  · rintro ⟨hd0, hall⟩ fuel
    subst hd0
    exact pollLoop_never_done dones hall fuel 0

/-- Witness for C7 with an operation that never reports done: five loop
unfoldings and the wait is still unresolved. -/
theorem C7_poll_loop_witness :
    (pollLoop (purePolls neverDone) 0 false 5).2 = Except.error RagError.diverged :=
  (C7_poll_loop neverDone false).2 ⟨rfl, fun _ => rfl⟩ 5

/-- C9: with no explicit api_key argument and the environment variable
absent or empty, the constructor raises ValueError; no client is built
and no remote work is possible. -/
theorem C9_init_missing_key (getenv : String → Option String)
    (h : getenv ("GEMINI_API_KEY") = none ∨ getenv ("GEMINI_API_KEY") = some "") :
    init none getenv =
      Except.error (RagError.valueError
        ("GEMINI_API_KEY not found in environment variables")) := by
  rcases h with h | h <;> simp [init, pyOrStr, h]

/-- Witness for C9 with a concrete empty environment. -/
theorem C9_init_missing_key_witness :
    init none envNone =
      Except.error (RagError.valueError
        ("GEMINI_API_KEY not found in environment variables")) :=
  C9_init_missing_key envNone (Or.inl rfl)

end GeminiRAG
